import Mathlib

/-!
Shallow embedding of drivers/scsi/ufs/ufshcd-pltfrm.c: the hardware-description
parsers and the probe orchestrator `ufshcd_pltfrm_init`, together with theorems
settling the specification claims.

Modelling conventions:
  * A device-tree node is a finite map of typed properties (string lists,
    u32 arrays, scalar u32 values, boolean properties, resolvable phandles).
  * Kernel error codes are positive constants; functions return the negated
    code, as in C.
  * `devm_kzalloc` / `kstrdup` allocation failures are outside the model
    (allocation is assumed to succeed); memory is not modelled.
  * External collaborators (ioremap, irq lookup, host allocation, reset
    controller, pinctrl, extcon, the controller-core initializer) are oracles
    in `ProbeEnv`, each an `Option Int` holding the error they fail with
    (`none` = success).  Kernel convention makes those errors negative
    (`IS_ERR`/`PTR_ERR` pointers encode `-4095..-1`); `ProbeEnv.WF` records
    that convention.
-/

/-- Kernel error number `EINVAL` (invalid argument). -/
def EINVAL : Int := 22

/-- Kernel error number `ENOMEM` (out of memory). -/
def ENOMEM : Int := 12

/-- Kernel error number `ENODEV` (no such device). -/
def ENODEV : Int := 19

/-- Modelled from the spec: the enumerated reference-clock frequencies of the
controller-core header (`ufshcd.h`, not under `src/`): indices
19.2 MHz = 0, 26 MHz = 1, 38.4 MHz = 2, 52 MHz = 3.  The claims depend only on
26 MHz being the fixed default and 52 MHz the top of the valid range. -/
def REF_CLK_FREQ_19_2_MHZ : Nat := 0

/-- Modelled from the spec: the 26 MHz-equivalent sentinel, the fixed default
reference-clock frequency. -/
def REF_CLK_FREQ_26_MHZ : Nat := 1

/-- Modelled from the spec: the highest enumerated reference-clock frequency. -/
def REF_CLK_FREQ_52_MHZ : Nat := 3

/-- Modelled from the spec: the defined low-power current floor
(`UFS_VREG_LPM_LOAD_UA` of the controller-core header, not under `src/`).
The claims depend only on the constant's name, not its magnitude. -/
def UFS_VREG_LPM_LOAD_UA : Nat := 1000

/-- Modelled from the spec: hard-coded default vcc range, lower bound (µV). -/
def UFS_VREG_VCC_MIN_UV : Nat := 2700000

/-- Modelled from the spec: hard-coded default vcc range, upper bound (µV). -/
def UFS_VREG_VCC_MAX_UV : Nat := 3600000

/-- Modelled from the spec: fixed 1.8V vcc range, lower bound (µV). -/
def UFS_VREG_VCC_1P8_MIN_UV : Nat := 1700000

/-- Modelled from the spec: fixed 1.8V vcc range, upper bound (µV). -/
def UFS_VREG_VCC_1P8_MAX_UV : Nat := 1950000

/-- Modelled from the spec: default vccq range, lower bound (µV). -/
def UFS_VREG_VCCQ_MIN_UV : Nat := 1100000

/-- Modelled from the spec: default vccq range, upper bound (µV). -/
def UFS_VREG_VCCQ_MAX_UV : Nat := 1300000

/-- Modelled from the spec: default vccq2 range, lower bound (µV). -/
def UFS_VREG_VCCQ2_MIN_UV : Nat := 1650000

/-- Modelled from the spec: default vccq2 range, upper bound (µV). -/
def UFS_VREG_VCCQ2_MAX_UV : Nat := 1950000

/-- Default lanes per direction (`UFSHCD_DEFAULT_LANES_PER_DIRECTION`). -/
def UFSHCD_DEFAULT_LANES_PER_DIRECTION : Nat := 2

/-- A device-tree node: finite maps of typed properties, keyed by name. -/
structure DeviceNode where
  stringListProps : List (String × List String) := []
  u32Arrays : List (String × List Nat) := []
  u32Props : List (String × Nat) := []
  boolProps : List String := []
  phandles : List String := []
deriving Repr, DecidableEq

/-- `of_property_count_strings`: number of strings in a string-list property,
`-EINVAL` when the property is absent. -/
def of_property_count_strings (np : DeviceNode) (name : String) : Int :=
  match np.stringListProps.lookup name with
  | none => -EINVAL
  | some l => l.length

/-- `of_property_read_string_index`-style access to a whole string list
(the C loop indexes it one entry at a time). -/
def of_string_list (np : DeviceNode) (name : String) : List String :=
  (np.stringListProps.lookup name).getD []

/-- `of_get_property` on a u32-array property: the raw cells, `none` when the
property is absent.  The byte length reported by the C call is four times the
cell count. -/
def of_get_property (np : DeviceNode) (name : String) : Option (List Nat) :=
  np.u32Arrays.lookup name

/-- `of_property_read_u32`: scalar u32 read, `-EINVAL` when absent. -/
def of_property_read_u32 (np : DeviceNode) (name : String) : Except Int Nat :=
  match np.u32Props.lookup name with
  | none => .error (-EINVAL)
  | some v => .ok v

/-- `of_property_read_bool`: presence test of a boolean property. -/
def of_property_read_bool (np : DeviceNode) (name : String) : Bool :=
  np.boolProps.contains name

/-- `of_parse_phandle` (index 0): whether the phandle property resolves. -/
def of_parse_phandle (np : DeviceNode) (name : String) : Bool :=
  np.phandles.contains name

/-- `struct ufs_clk_info`: one parsed clock descriptor. -/
structure UfsClkInfo where
  name : String
  min_freq : Nat
  max_freq : Nat
deriving Repr, DecidableEq

/-- The loop of `ufshcd_parse_clock_info` (lines 120-138): walk the flat
frequency table two cells at a time, pairing cell `i` / `i+1` with clock name
`i/2`, appending descriptors in declaration order. -/
def buildClks : List String → List Nat → List UfsClkInfo
  | n :: ns, f1 :: f2 :: fs =>
      { name := n, min_freq := f1, max_freq := f2 } :: buildClks ns fs
  | _, _ => []

/-- `ufshcd_parse_clock_info`: returns the parsed clock list, or a negative
error.  An absent node, absent name list, absent or empty frequency table all
succeed with an empty list; a frequency-table length different from twice a
positive name count fails with `-EINVAL`. -/
def ufshcd_parse_clock_info (node : Option DeviceNode) : Except Int (List UfsClkInfo) :=
  match node with
  | none => .ok []
  | some np =>
    let cnt : Int := of_property_count_strings np "clock-names"
    if cnt ≤ 0 then
      -- `!cnt || cnt == -EINVAL`: informational, ret stays 0; other negative
      -- counts set ret = cnt.  Either way `cnt <= 0` jumps to out.
      if cnt = 0 ∨ cnt = -EINVAL then .ok [] else .error cnt
    else
      match of_get_property np "freq-table-hz" with
      | none => .ok []
      | some tbl =>
        let len : Int := 4 * tbl.length
        if len ≤ 0 then .ok []
        else if (tbl.length : Int) ≠ 2 * cnt then .error (-EINVAL)
        else .ok (buildClks (of_string_list np "clock-names") tbl)

/-- `struct ufs_vreg`: one parsed regulator descriptor.  `devm_kzalloc` zeroes
every field, so defaults are 0 / `false`. -/
structure UfsVreg where
  name : String
  max_uA : Nat := 0
  min_uA : Nat := 0
  min_uV : Nat := 0
  max_uV : Nat := 0
  low_voltage_sup : Bool := false
deriving Repr, DecidableEq

/-- The voltage-level selection of lines 193-202 / 211-220: a present property
with exactly two cells (byte length `2 * sizeof(__be32)`) supplies the range;
an absent or malformed property degrades (with a warning) to the given
hard-coded default range. -/
def voltageLevelRange (prop : Option (List Nat)) (dflt : Nat × Nat) : Nat × Nat :=
  match prop with
  | some [a, b] => (a, b)
  | _ => dflt

/-- `ufshcd_populate_vreg`: resolve one regulator role from the description.
`.ok none` = supply absent (always-on assumption, lines 159-163) or non-DT
initialization (lines 153-156); `.error e` = fatal parse error; `.ok (some v)`
= descriptor produced.  Mirrors the source's control flow: fixed-regulator
early-out before the max-microamp check, then min-microamp with the low-power
floor fallback, then the role-specific voltage-range dispatch. -/
def ufshcd_populate_vreg (node : Option DeviceNode) (name : String) :
    Except Int (Option UfsVreg) :=
  match node with
  | none => .ok none
  | some np =>
    if ¬ of_parse_phandle np (name ++ "-supply") then .ok none
    else
      let vreg : UfsVreg := { name := name }
      if of_property_read_bool np (name ++ "-fixed-regulator") then .ok (some vreg)
      else
        match of_property_read_u32 np (name ++ "-max-microamp") with
        | .error e => .error e
        | .ok maxua =>
          let vreg := { vreg with max_uA := maxua }
          let vreg :=
            match of_property_read_u32 np (name ++ "-min-microamp") with
            | .ok minua => { vreg with min_uA := minua }
            | .error _ => { vreg with min_uA := UFS_VREG_LPM_LOAD_UA }
          if name = "vcc" then
            if of_property_read_bool np "vcc-supply-1p8" then
              .ok (some { vreg with min_uV := UFS_VREG_VCC_1P8_MIN_UV,
                                    max_uV := UFS_VREG_VCC_1P8_MAX_UV })
            else
              let rng := voltageLevelRange (of_get_property np "vcc-voltage-level")
                (UFS_VREG_VCC_MIN_UV, UFS_VREG_VCC_MAX_UV)
              let vreg := { vreg with min_uV := rng.1, max_uV := rng.2 }
              if of_property_read_bool np "vcc-low-voltage-sup" then
                .ok (some { vreg with low_voltage_sup := true })
              else .ok (some vreg)
          else if name = "vccq" then
            .ok (some { vreg with min_uV := UFS_VREG_VCCQ_MIN_UV,
                                  max_uV := UFS_VREG_VCCQ_MAX_UV })
          else if name = "vccq2" then
            let rng := voltageLevelRange (of_get_property np "vccq2-voltage-level")
              (UFS_VREG_VCCQ2_MIN_UV, UFS_VREG_VCCQ2_MAX_UV)
            .ok (some { vreg with min_uV := rng.1, max_uV := rng.2 })
          else .ok (some vreg)

/-- `struct ufs_vreg_info`: the four recognized regulator roles. -/
structure UfsVregInfo where
  vdd_hba : Option UfsVreg := none
  vcc : Option UfsVreg := none
  vccq : Option UfsVreg := none
  vccq2 : Option UfsVreg := none
deriving Repr, DecidableEq

/-- `ufshcd_parse_regulator_info`: populate the four roles in order,
propagating the first fatal error. -/
def ufshcd_parse_regulator_info (node : Option DeviceNode) : Except Int UfsVregInfo :=
  match ufshcd_populate_vreg node "vdd-hba" with
  | .error e => .error e
  | .ok vdd_hba =>
  match ufshcd_populate_vreg node "vcc" with
  | .error e => .error e
  | .ok vcc =>
  match ufshcd_populate_vreg node "vccq" with
  | .error e => .error e
  | .ok vccq =>
  match ufshcd_populate_vreg node "vccq2" with
  | .error e => .error e
  | .ok vccq2 =>
    .ok { vdd_hba := vdd_hba, vcc := vcc, vccq := vccq, vccq2 := vccq2 }

/-- `ufshcd_parse_reset_info`: the oracle is the `devm_reset_control_get`
outcome.  On error the handle is cleared (`hba->core_reset = NULL`) and the
error is returned; result = (handle present?, return value). -/
def ufshcd_parse_reset_info (reset_err : Option Int) : Bool × Int :=
  match reset_err with
  | some e => (false, e)
  | none => (true, 0)

/-- `ufshcd_parse_pinctrl_info`: on error the handle is cleared and the error
returned; result = (handle present?, return value). -/
def ufshcd_parse_pinctrl_info (pinctrl_err : Option Int) : Bool × Int :=
  match pinctrl_err with
  | some e => (false, e)
  | none => (true, 0)

/-- `ufshcd_parse_extcon_info`: `-ENODEV` from the extcon lookup means absence
and succeeds without a handle; any other lookup error is propagated; success
stores the handle.  Result: `.ok` = return 0 with the handle-present flag. -/
def ufshcd_parse_extcon_info (extcon_err : Option Int) : Except Int Bool :=
  match extcon_err with
  | none => .ok true
  | some e => if e ≠ -ENODEV then .error e else .ok false

/-- `ufshcd_parse_dev_ref_clk_freq`: absent node leaves the field at its prior
value; an absent property or a value above `REF_CLK_FREQ_52_MHZ` resets to the
26 MHz default.  (`hba->dev_ref_clk_freq < 0` is vacuous on an unsigned
value, hence a `Nat` model.) -/
def ufshcd_parse_dev_ref_clk_freq (prior : Nat) (node : Option DeviceNode) : Nat :=
  match node with
  | none => prior
  | some np =>
    match of_property_read_u32 np "dev-ref-clk-freq" with
    | .error _ => REF_CLK_FREQ_26_MHZ
    | .ok v => if v > REF_CLK_FREQ_52_MHZ then REF_CLK_FREQ_26_MHZ else v

/-- `ufshcd_parse_pm_levels`: rpm/spm levels, `-1` on absent property; an
absent node leaves both fields at their zeroed value. -/
def ufshcd_parse_pm_levels (node : Option DeviceNode) : Int × Int :=
  match node with
  | none => (0, 0)
  | some np =>
    ((match of_property_read_u32 np "rpm-level" with
      | .ok v => (v : Int)
      | .error _ => -1),
     (match of_property_read_u32 np "spm-level" with
      | .ok v => (v : Int)
      | .error _ => -1))

/-- The four gear limits of `ufshcd_parse_gear_limits`. -/
structure GearLimits where
  tx_hs : Int := 0
  rx_hs : Int := 0
  tx_pwm : Int := 0
  rx_pwm : Int := 0
deriving Repr, DecidableEq

/-- `ufshcd_parse_gear_limits`: each limit defaults to `-1` (unlimited) when
its property is absent; an absent node leaves the zeroed fields untouched. -/
def ufshcd_parse_gear_limits (node : Option DeviceNode) : GearLimits :=
  match node with
  | none => {}
  | some np =>
    { tx_hs := match of_property_read_u32 np "limit-tx-hs-gear" with
        | .ok v => (v : Int) | .error _ => -1,
      rx_hs := match of_property_read_u32 np "limit-rx-hs-gear" with
        | .ok v => (v : Int) | .error _ => -1,
      tx_pwm := match of_property_read_u32 np "limit-tx-pwm-gear" with
        | .ok v => (v : Int) | .error _ => -1,
      rx_pwm := match of_property_read_u32 np "limit-rx-pwm-gear" with
        | .ok v => (v : Int) | .error _ => -1 }

/-- `ufshcd_parse_cmd_timeout`: defaults to 0 when the property (or the node)
is absent. -/
def ufshcd_parse_cmd_timeout (node : Option DeviceNode) : Nat :=
  match node with
  | none => 0
  | some np =>
    match of_property_read_u32 np "scsi-cmd-timeout" with
    | .ok v => v
    | .error _ => 0

/-- `ufshcd_parse_force_g4_flag`: boolean property, `false` by default. -/
def ufshcd_parse_force_g4_flag (node : Option DeviceNode) : Bool :=
  match node with
  | none => false
  | some np => of_property_read_bool np "force-g4"

/-- `ufshcd_init_lanes_per_dir`: defaults to 2 when the property (or the node)
is absent. -/
def ufshcd_init_lanes_per_dir (node : Option DeviceNode) : Nat :=
  match node with
  | none => UFSHCD_DEFAULT_LANES_PER_DIRECTION
  | some np =>
    match of_property_read_u32 np "lanes-per-direction" with
    | .ok v => v
    | .error _ => UFSHCD_DEFAULT_LANES_PER_DIRECTION

/-- Stages of `ufshcd_pltfrm_init`, in the order the source invokes them. -/
inductive ProbeStage where
  | clocks
  | regulators
  | reset
  | pinctrl
  | refclk
  | pmLevels
  | gearLimits
  | cmdTimeout
  | forceG4
  | extcon
  | lanes
  | init
deriving Repr, DecidableEq, BEq

/-- The adapter (`struct ufs_hba`) fields this file populates. -/
structure Adapter where
  clk_list : List UfsClkInfo
  vreg_info : UfsVregInfo
  core_reset : Bool
  pctrl : Bool
  extcon : Bool
  dev_ref_clk_freq : Nat
  rpm_lvl : Int
  spm_lvl : Int
  gear_limits : GearLimits
  scsi_cmd_timeout : Nat
  force_g4 : Bool
  lanes_per_direction : Nat
deriving Repr, DecidableEq

/-- One probe run's inputs: the device-tree node and the outcomes of the
external collaborators (`none` = success, `some e` = failure with error `e`). -/
structure ProbeEnv where
  node : Option DeviceNode := none
  mmio_err : Option Int := none
  irq_ok : Bool := true
  alloc_err : Option Int := none
  reset_err : Option Int := none
  pinctrl_err : Option Int := none
  extcon_err : Option Int := none
  init_err : Option Int := none
deriving Repr, DecidableEq

/-- Error codes handed back by collaborators are negative (`IS_ERR` pointer
range and negative-errno return conventions). -/
def ProbeEnv.WF (env : ProbeEnv) : Bool :=
  env.mmio_err.all (· < 0) && env.alloc_err.all (· < 0) &&
  env.reset_err.all (· < 0) && env.pinctrl_err.all (· < 0) &&
  env.extcon_err.all (· < 0) && env.init_err.all (· < 0)

/-- Externally observable outcome of one probe run: the returned status, the
published driver-private state (`platform_set_drvdata`), whether
`ufshcd_dealloc_host` ran, whether runtime PM was enabled, and the ordered
list of stages that were invoked. -/
structure ProbeResult where
  ret : Int
  published : Bool
  dealloc : Bool
  pm_enabled : Bool
  adapter : Option Adapter
  trace : List ProbeStage
deriving Repr, DecidableEq

/-- `ufshcd_pltfrm_init`: the probe orchestrator.  Mirrors the source's
goto-based unwind: failures before `ufshcd_alloc_host` return without
deallocation, failures after it jump to `dealloc_host`.  Clock and regulator
parsing, reset parsing, extcon parsing and the controller-core initializer
abort the probe on error; pinctrl failure only logs. -/
def ufshcd_pltfrm_init (env : ProbeEnv) : ProbeResult :=
  match env.mmio_err with
  | some e => ⟨e, false, false, false, none, []⟩
  | none =>
  if ¬ env.irq_ok then ⟨-ENODEV, false, false, false, none, []⟩
  else match env.alloc_err with
  | some e => ⟨e, false, false, false, none, []⟩
  | none =>
  match ufshcd_parse_clock_info env.node with
  | .error e => ⟨e, false, true, false, none, [.clocks]⟩
  | .ok clks =>
  match ufshcd_parse_regulator_info env.node with
  | .error e => ⟨e, false, true, false, none, [.clocks, .regulators]⟩
  | .ok vregs =>
  let reset := ufshcd_parse_reset_info env.reset_err
  if reset.2 ≠ 0 then ⟨reset.2, false, true, false, none, [.clocks, .regulators, .reset]⟩
  else
  let pinctrl := ufshcd_parse_pinctrl_info env.pinctrl_err
  -- pinctrl failure: "let's not fail the probe"
  let refclk := ufshcd_parse_dev_ref_clk_freq 0 env.node
  let pm := ufshcd_parse_pm_levels env.node
  let gears := ufshcd_parse_gear_limits env.node
  let timeout := ufshcd_parse_cmd_timeout env.node
  let g4 := ufshcd_parse_force_g4_flag env.node
  let tr0 : List ProbeStage :=
    [.clocks, .regulators, .reset, .pinctrl, .refclk, .pmLevels, .gearLimits,
     .cmdTimeout, .forceG4]
  match ufshcd_parse_extcon_info env.extcon_err with
  | .error e => ⟨e, false, true, false, none, tr0 ++ [.extcon]⟩
  | .ok extcon =>
  let lanes := ufshcd_init_lanes_per_dir env.node
  match env.init_err with
  | some e => ⟨e, false, true, false, none, tr0 ++ [.extcon, .lanes, .init]⟩
  | none =>
    let hba : Adapter :=
      { clk_list := clks, vreg_info := vregs, core_reset := reset.1,
        pctrl := pinctrl.1, extcon := extcon, dev_ref_clk_freq := refclk,
        rpm_lvl := pm.1, spm_lvl := pm.2, gear_limits := gears,
        scsi_cmd_timeout := timeout, force_g4 := g4,
        lanes_per_direction := lanes }
    ⟨0, true, false, true, some hba, tr0 ++ [.extcon, .lanes, .init]⟩

/-- Empty device node: no properties at all. -/
def npEmpty : DeviceNode := {}

/-- Node declaring one clock with a well-formed two-entry frequency table. -/
def npClkOne : DeviceNode :=
  { stringListProps := [("clock-names", ["ref_clk"])],
    u32Arrays := [("freq-table-hz", [100000, 200000])] }

/-- Node declaring one clock but an empty (zero-length) frequency table. -/
def npClkEmptyFreq : DeviceNode :=
  { stringListProps := [("clock-names", ["ref_clk"])],
    u32Arrays := [("freq-table-hz", [])] }

/-- Node declaring one clock with a one-entry frequency table. -/
def npClkOdd : DeviceNode :=
  { stringListProps := [("clock-names", ["ref_clk"])],
    u32Arrays := [("freq-table-hz", [100000])] }

/-- Node with a vcc supply marked fixed-regulator and no max-microamp. -/
def npVccFixed : DeviceNode :=
  { phandles := ["vcc-supply"],
    boolProps := ["vcc-fixed-regulator"] }

/-- Node with a vcc supply marked fixed-regulator, the 1.8V flag set, and an
explicit voltage-level property. -/
def npVccFixed1p8 : DeviceNode :=
  { phandles := ["vcc-supply"],
    boolProps := ["vcc-fixed-regulator", "vcc-supply-1p8"],
    u32Arrays := [("vcc-voltage-level", [2950000, 2960000])] }

/-- Node with a vcc supply, no fixed-regulator flag, and no max-microamp. -/
def npVccNoMax : DeviceNode :=
  { phandles := ["vcc-supply"] }

/-- Node with a vcc supply, the 1.8V flag, the low-voltage flag, a voltage
level, and a max-microamp. -/
def npVcc1p8 : DeviceNode :=
  { phandles := ["vcc-supply"],
    boolProps := ["vcc-supply-1p8", "vcc-low-voltage-sup"],
    u32Arrays := [("vcc-voltage-level", [2950000, 2960000])],
    u32Props := [("vcc-max-microamp", 500000)] }

/-- Node with a vcc supply, a malformed (one-entry) voltage level, and a
max-microamp. -/
def npVccBadVol : DeviceNode :=
  { phandles := ["vcc-supply"],
    u32Arrays := [("vcc-voltage-level", [1800000])],
    u32Props := [("vcc-max-microamp", 500000)] }

/-- Node with a vcc supply and a malformed (one-entry) voltage level, but no
max-microamp. -/
def npVccBadVolNoMax : DeviceNode :=
  { phandles := ["vcc-supply"],
    u32Arrays := [("vcc-voltage-level", [1800000])] }

/-- Node whose dev-ref-clk-freq is 999, outside the enumerated range. -/
def npRefClk999 : DeviceNode :=
  { u32Props := [("dev-ref-clk-freq", 999)] }

/-- Probe inputs where every collaborator succeeds on an empty device node. -/
def envAllOk : ProbeEnv := { node := some npEmpty }

/-- Probe inputs where only the reset-control lookup fails (with `-EIO`). -/
def envResetFail : ProbeEnv := { node := some npEmpty, reset_err := some (-5) }

/-- Probe inputs where only the clock table is malformed. -/
def envClkBad : ProbeEnv := { node := some npClkOdd }

theorem read_u32_error_eq (np : DeviceNode) (s : String) (e : Int)
    (h : of_property_read_u32 np s = .error e) : e = -EINVAL := by
  unfold of_property_read_u32 at h
  split at h
  · simp only [Except.error.injEq] at h
    omega
  · simp at h

theorem clock_info_error_neg (node : Option DeviceNode) (e : Int)
    (h : ufshcd_parse_clock_info node = .error e) : e < 0 := by
  unfold ufshcd_parse_clock_info at h
  cases node with
  | none => simp at h
  | some np =>
    simp only at h
    split at h
    · split at h
      · simp at h
      · rename_i hle hne
        simp only [Except.error.injEq] at h
        simp only [not_or] at hne
        omega
    · split at h
      · simp at h
      · split at h
        · simp at h
        · split at h
          · simp only [Except.error.injEq] at h
            rw [← h]
            decide
          · simp at h

theorem populate_vreg_error_eq (node : Option DeviceNode) (name : String) (e : Int)
    (h : ufshcd_populate_vreg node name = .error e) : e = -EINVAL := by
  unfold ufshcd_populate_vreg at h
  cases node with
  | none => simp at h
  | some np =>
    simp only at h
    split at h
    · simp at h
    · split at h
      · simp at h
      · split at h
        · rename_i e2 hu
          simp only [Except.error.injEq] at h
          rw [← h]
          exact read_u32_error_eq np (name ++ "-max-microamp") e2 hu
        · split at h
          · split at h
            · simp at h
            · split at h <;> simp at h
          · split at h
            · simp at h
            · split at h
              · split at h <;> simp at h
              · simp at h

theorem regulator_info_error_neg (node : Option DeviceNode) (e : Int)
    (h : ufshcd_parse_regulator_info node = .error e) : e < 0 := by
  unfold ufshcd_parse_regulator_info at h
  have hneg : e = -EINVAL → e < 0 := by intro he; rw [he]; decide
  split at h
  · rename_i e1 h1
    simp only [Except.error.injEq] at h
    exact hneg (h ▸ populate_vreg_error_eq node "vdd-hba" e1 h1)
  · split at h
    · rename_i e1 h1
      simp only [Except.error.injEq] at h
      exact hneg (h ▸ populate_vreg_error_eq node "vcc" e1 h1)
    · split at h
      · rename_i e1 h1
        simp only [Except.error.injEq] at h
        exact hneg (h ▸ populate_vreg_error_eq node "vccq" e1 h1)
      · split at h
        · rename_i e1 h1
          simp only [Except.error.injEq] at h
          exact hneg (h ▸ populate_vreg_error_eq node "vccq2" e1 h1)
        · simp at h

theorem buildClks_nil (fs : List Nat) : buildClks [] fs = [] := by
  cases fs with
  | nil => rfl
  | cons f fs => rfl

theorem buildClks_spec (ns : List String) (fs : List Nat)
    (h : fs.length = 2 * ns.length) :
    (buildClks ns fs).length = ns.length ∧
    ∀ i, i < ns.length →
      ∃ nm f1 f2, ns.get? i = some nm ∧ fs.get? (2 * i) = some f1 ∧
        fs.get? (2 * i + 1) = some f2 ∧
        (buildClks ns fs).get? i =
          some { name := nm, min_freq := f1, max_freq := f2 } := by
  induction ns generalizing fs with
  | nil =>
    refine ⟨by rw [buildClks_nil]; rfl, ?_⟩
    intro i hi
    exact absurd hi (by simp)
  | cons n ns ih =>
    obtain ⟨f1, f2, fs', rfl⟩ : ∃ f1 f2 fs', fs = f1 :: f2 :: fs' := by
      cases fs with
      | nil => simp at h
      | cons f1 t =>
        cases t with
        | nil => simp [Nat.mul_succ] at h
        | cons f2 fs' => exact ⟨f1, f2, fs', rfl⟩
    have h' : fs'.length = 2 * ns.length := by
      simp [Nat.mul_succ] at h
      omega
    obtain ⟨hlen, hget⟩ := ih fs' h'
    refine ⟨by simp [buildClks, hlen], ?_⟩
    intro i hi
    cases i with
    | zero => exact ⟨n, f1, f2, rfl, rfl, rfl, by simp [buildClks]⟩
    | succ i =>
      obtain ⟨nm, g1, g2, h1, h2, h3, h4⟩ := hget i (by simpa using hi)
      refine ⟨nm, g1, g2, by simpa using h1, ?_, ?_, by simpa [buildClks] using h4⟩
      · have e2 : 2 * (i + 1) = 2 * i + 1 + 1 := by ring
        rw [e2, List.get?_cons_succ, List.get?_cons_succ]
        exact h2
      · have e3 : 2 * (i + 1) + 1 = 2 * i + 1 + 1 + 1 := by ring
        rw [e3, List.get?_cons_succ, List.get?_cons_succ]
        exact h3

/-- C5: for every well-formed hardware description whose frequency array
length equals exactly twice the clock-name count, the clock parser succeeds
and produces exactly one ClockDescriptor per declared name, in declaration
order, with min/max frequencies taken from the corresponding (min, max) pair
of the flat frequency array. -/
theorem clock_parse_wellformed_ok (np : DeviceNode) (ns : List String) (fs : List Nat)
    (hn : np.stringListProps.lookup "clock-names" = some ns)
    (hf : np.u32Arrays.lookup "freq-table-hz" = some fs)
    (hlen : fs.length = 2 * ns.length) :
    ∃ l, ufshcd_parse_clock_info (some np) = .ok l ∧ l.length = ns.length ∧
      ∀ i, i < ns.length →
        ∃ nm f1 f2, ns.get? i = some nm ∧ fs.get? (2 * i) = some f1 ∧
          fs.get? (2 * i + 1) = some f2 ∧
          l.get? i = some { name := nm, min_freq := f1, max_freq := f2 } := by
  obtain ⟨hl, hg⟩ := buildClks_spec ns fs hlen
  refine ⟨buildClks ns fs, ?_, hl, hg⟩
  simp only [ufshcd_parse_clock_info, of_property_count_strings, of_get_property,
    of_string_list, hn, hf, Option.getD_some]
  cases ns with
  | nil =>
    have hfs : fs = [] := by
      cases fs with
      | nil => rfl
      | cons f t => simp at hlen
    subst hfs
    norm_num [buildClks_nil]
  | cons n ns' =>
    have hfl : fs.length = 2 * ns'.length + 2 := by
      simp only [List.length_cons] at hlen
      omega
    have h1 : ¬ (((n :: ns').length : Int) ≤ 0) := by
      simp
    rw [if_neg h1]
    have h2 : ¬ ((4 * (fs.length : Int)) ≤ 0) := by
      rw [hfl]
      push_cast
      omega
    rw [if_neg h2]
    have h3 : ¬ ((fs.length : Int) ≠ 2 * ((n :: ns').length : Int)) := by
      rw [hfl]
      simp only [List.length_cons]
      push_cast
      omega
    rw [if_neg h3]

/-- Witness for C5 at a one-clock description with table [100000, 200000]. -/
theorem clock_parse_wellformed_ok_witness :
    npClkOne.stringListProps.lookup "clock-names" = some ["ref_clk"] ∧
    npClkOne.u32Arrays.lookup "freq-table-hz" = some [100000, 200000] ∧
    ([100000, 200000] : List Nat).length = 2 * (["ref_clk"] : List String).length ∧
    (∃ l, ufshcd_parse_clock_info (some npClkOne) = .ok l ∧
      l.length = (["ref_clk"] : List String).length ∧
      ∀ i, i < (["ref_clk"] : List String).length →
        ∃ nm f1 f2, (["ref_clk"] : List String).get? i = some nm ∧
          ([100000, 200000] : List Nat).get? (2 * i) = some f1 ∧
          ([100000, 200000] : List Nat).get? (2 * i + 1) = some f2 ∧
          l.get? i = some { name := nm, min_freq := f1, max_freq := f2 }) :=
  ⟨rfl, rfl, by decide,
   clock_parse_wellformed_ok npClkOne ["ref_clk"] [100000, 200000] rfl rfl (by decide)⟩

/-- C6 counterexample: a description declaring one clock whose frequency array
is present but empty — its length 0 differs from 2 × 1 — yet the clock parser
succeeds with an empty clock list rather than failing with a length-mismatch
error. -/
theorem clock_parse_mismatch_cex :
    ufshcd_parse_clock_info (some npClkEmptyFreq) = .ok [] ∧
    npClkEmptyFreq.u32Arrays.lookup "freq-table-hz" = some [] ∧
    npClkEmptyFreq.stringListProps.lookup "clock-names" = some ["ref_clk"] ∧
    ((npClkEmptyFreq.u32Arrays.lookup "freq-table-hz").getD []).length ≠
      2 * ((npClkEmptyFreq.stringListProps.lookup "clock-names").getD []).length :=
  ⟨rfl, rfl, rfl, by decide⟩

/-- C6 amended: with a nonempty clock-name list and a present, nonempty
frequency array whose length differs from twice the name count, the clock
parser fails with `-EINVAL` and acquires no ClockDescriptor; an absent or
empty frequency array instead succeeds with an empty clock list. -/
theorem clock_parse_mismatch_fails (np : DeviceNode) (ns : List String) (fs : List Nat)
    (hn : np.stringListProps.lookup "clock-names" = some ns) (hns : ns ≠ [])
    (hf : np.u32Arrays.lookup "freq-table-hz" = some fs) (hfs : fs ≠ [])
    (hlen : fs.length ≠ 2 * ns.length) :
    ufshcd_parse_clock_info (some np) = .error (-EINVAL) := by
  simp only [ufshcd_parse_clock_info, of_property_count_strings, of_get_property, hn, hf]
  have h1 : ¬ ((ns.length : Int) ≤ 0) := by
    cases ns with
    | nil => exact absurd rfl hns
    | cons a t => simp
  rw [if_neg h1]
  have h2 : ¬ ((4 * (fs.length : Int)) ≤ 0) := by
    cases fs with
    | nil => exact absurd rfl hfs
    | cons a t =>
      simp only [List.length_cons]
      push_cast
      omega
  rw [if_neg h2]
  have h3 : (fs.length : Int) ≠ 2 * (ns.length : Int) := by
    exact_mod_cast hlen
  rw [if_pos h3]

/-- Witness for the amended C6 at a one-clock description with a one-entry
frequency array. -/
theorem clock_parse_mismatch_fails_witness :
    npClkOdd.stringListProps.lookup "clock-names" = some ["ref_clk"] ∧
    npClkOdd.u32Arrays.lookup "freq-table-hz" = some [100000] ∧
    ([100000] : List Nat).length ≠ 2 * (["ref_clk"] : List String).length ∧
    ufshcd_parse_clock_info (some npClkOdd) = .error (-EINVAL) :=
  ⟨rfl, rfl, by decide,
   clock_parse_mismatch_fails npClkOdd ["ref_clk"] [100000] rfl (by decide) rfl
     (by decide) (by decide)⟩

/-- C3 counterexample: a description with a vcc supply phandle, the
vcc-fixed-regulator flag set, and no vcc-max-microamp property, on which the
regulator parser succeeds (with a descriptor) instead of failing. -/
theorem vreg_max_microamp_cex :
    of_parse_phandle npVccFixed "vcc-supply" = true ∧
    npVccFixed.u32Props.lookup "vcc-max-microamp" = none ∧
    ufshcd_populate_vreg (some npVccFixed) "vcc" = .ok (some { name := "vcc" }) :=
  ⟨rfl, rfl, rfl⟩

/-- C3 amended: for every role whose supply phandle is present and whose
fixed-regulator flag is not set, the regulator parser fails with `-EINVAL`
whenever the role's max-microamp property is absent; with the fixed-regulator
flag set, further initialization is skipped and the parse succeeds. -/
theorem vreg_max_microamp_mandatory (np : DeviceNode) (name : String)
    (hs : of_parse_phandle np (name ++ "-supply") = true)
    (hfix : of_property_read_bool np (name ++ "-fixed-regulator") = false)
    (hmax : np.u32Props.lookup (name ++ "-max-microamp") = none) :
    ufshcd_populate_vreg (some np) name = .error (-EINVAL) := by
  simp [ufshcd_populate_vreg, hs, hfix, of_property_read_u32, hmax]

/-- Witness for the amended C3 at a vcc supply with no max-microamp. -/
theorem vreg_max_microamp_mandatory_witness :
    of_parse_phandle npVccNoMax "vcc-supply" = true ∧
    of_property_read_bool npVccNoMax "vcc-fixed-regulator" = false ∧
    npVccNoMax.u32Props.lookup "vcc-max-microamp" = none ∧
    ufshcd_populate_vreg (some npVccNoMax) "vcc" = .error (-EINVAL) :=
  ⟨rfl, rfl, rfl, vreg_max_microamp_mandatory npVccNoMax "vcc" rfl rfl rfl⟩

/-- C7 counterexample: with the vcc supply present, vcc-supply-1p8 set, a
vcc-voltage-level property present, but the vcc-fixed-regulator flag also set,
the parser yields a descriptor whose voltage range is (0, 0), not the fixed
1.8V range. -/
theorem vcc_1p8_range_cex :
    of_parse_phandle npVccFixed1p8 "vcc-supply" = true ∧
    of_property_read_bool npVccFixed1p8 "vcc-supply-1p8" = true ∧
    ufshcd_populate_vreg (some npVccFixed1p8) "vcc" = .ok (some { name := "vcc" }) ∧
    ¬ ((UfsVreg.mk "vcc" 0 0 0 0 false).min_uV = UFS_VREG_VCC_1P8_MIN_UV ∧
       (UfsVreg.mk "vcc" 0 0 0 0 false).max_uV = UFS_VREG_VCC_1P8_MAX_UV) :=
  ⟨rfl, rfl, rfl, by decide⟩

/-- C7 amended: for the vcc role with supply present, vcc-supply-1p8 set and
the vcc-fixed-regulator flag unset, any descriptor the parser yields has the
fixed 1.8V voltage range, regardless of any vcc-voltage-level property. -/
theorem vcc_1p8_range (np : DeviceNode) (v : UfsVreg)
    (hs : of_parse_phandle np "vcc-supply" = true)
    (hfix : of_property_read_bool np "vcc-fixed-regulator" = false)
    (h1p8 : of_property_read_bool np "vcc-supply-1p8" = true)
    (hok : ufshcd_populate_vreg (some np) "vcc" = .ok (some v)) :
    v.min_uV = UFS_VREG_VCC_1P8_MIN_UV ∧ v.max_uV = UFS_VREG_VCC_1P8_MAX_UV := by
  cases hm : of_property_read_u32 np "vcc-max-microamp" with
  | error e =>
    simp [ufshcd_populate_vreg, hs, hfix, h1p8, hm] at hok
  | ok maxua =>
    cases hmin : of_property_read_u32 np "vcc-min-microamp" with
    | error e2 =>
      simp [ufshcd_populate_vreg, hs, hfix, h1p8, hm, hmin] at hok
      rw [← hok]
      exact ⟨rfl, rfl⟩
    | ok minua =>
      simp [ufshcd_populate_vreg, hs, hfix, h1p8, hm, hmin] at hok
      rw [← hok]
      exact ⟨rfl, rfl⟩

theorem voltageLevelRange_malformed (l : List Nat) (dflt : Nat × Nat)
    (hl : l.length ≠ 2) : voltageLevelRange (some l) dflt = dflt := by
  rcases l with _ | ⟨a, _ | ⟨b, _ | ⟨c, t⟩⟩⟩
  · rfl
  · rfl
  · exact absurd rfl hl
  · rfl

/-- Witness for the amended C7 at a vcc node with the 1.8V flag, an explicit
voltage-level property, and a max-microamp value. -/
theorem vcc_1p8_range_witness :
    of_parse_phandle npVcc1p8 "vcc-supply" = true ∧
    of_property_read_bool npVcc1p8 "vcc-fixed-regulator" = false ∧
    of_property_read_bool npVcc1p8 "vcc-supply-1p8" = true ∧
    ufshcd_populate_vreg (some npVcc1p8) "vcc" =
      .ok (some { name := "vcc", max_uA := 500000, min_uA := UFS_VREG_LPM_LOAD_UA,
                  min_uV := UFS_VREG_VCC_1P8_MIN_UV,
                  max_uV := UFS_VREG_VCC_1P8_MAX_UV }) ∧
    ({ name := "vcc", max_uA := 500000, min_uA := UFS_VREG_LPM_LOAD_UA,
       min_uV := UFS_VREG_VCC_1P8_MIN_UV,
       max_uV := UFS_VREG_VCC_1P8_MAX_UV } : UfsVreg).min_uV =
        UFS_VREG_VCC_1P8_MIN_UV ∧
    ({ name := "vcc", max_uA := 500000, min_uA := UFS_VREG_LPM_LOAD_UA,
       min_uV := UFS_VREG_VCC_1P8_MIN_UV,
       max_uV := UFS_VREG_VCC_1P8_MAX_UV } : UfsVreg).max_uV =
        UFS_VREG_VCC_1P8_MAX_UV :=
  ⟨rfl, rfl, rfl, rfl,
   vcc_1p8_range npVcc1p8
     { name := "vcc", max_uA := 500000, min_uA := UFS_VREG_LPM_LOAD_UA,
       min_uV := UFS_VREG_VCC_1P8_MIN_UV, max_uV := UFS_VREG_VCC_1P8_MAX_UV }
     rfl rfl rfl rfl⟩

/-- C8 counterexample: a description with a vcc supply, no vcc-supply-1p8, a
malformed one-entry vcc-voltage-level, and no vcc-max-microamp: the regulator
parser fails with `-EINVAL` (because max-microamp is mandatory), contradicting
"the regulator parser does not fail". -/
theorem vcc_badvol_cex :
    of_parse_phandle npVccBadVolNoMax "vcc-supply" = true ∧
    of_property_read_bool npVccBadVolNoMax "vcc-supply-1p8" = false ∧
    of_get_property npVccBadVolNoMax "vcc-voltage-level" = some [1800000] ∧
    ([1800000] : List Nat).length ≠ 2 ∧
    ufshcd_populate_vreg (some npVccBadVolNoMax) "vcc" = .error (-EINVAL) :=
  ⟨rfl, rfl, rfl, by decide, rfl⟩

/-- C8 amended: for the vcc role with supply present, vcc-supply-1p8 unset,
the fixed-regulator flag unset and max-microamp present, a malformed
(wrong-length) vcc-voltage-level does not fail the parse: the descriptor gets
the hard-coded default vcc range. -/
theorem vcc_badvol_default_range (np : DeviceNode) (l : List Nat) (maxua : Nat)
    (hs : of_parse_phandle np "vcc-supply" = true)
    (hfix : of_property_read_bool np "vcc-fixed-regulator" = false)
    (h1p8 : of_property_read_bool np "vcc-supply-1p8" = false)
    (hm : of_property_read_u32 np "vcc-max-microamp" = .ok maxua)
    (hvl : of_get_property np "vcc-voltage-level" = some l)
    (hl : l.length ≠ 2) :
    ∃ v, ufshcd_populate_vreg (some np) "vcc" = .ok (some v) ∧
      v.min_uV = UFS_VREG_VCC_MIN_UV ∧ v.max_uV = UFS_VREG_VCC_MAX_UV := by
  have hrng := voltageLevelRange_malformed l
    (UFS_VREG_VCC_MIN_UV, UFS_VREG_VCC_MAX_UV) hl
  cases hmin : of_property_read_u32 np "vcc-min-microamp" with
  | error e =>
    cases hlow : of_property_read_bool np "vcc-low-voltage-sup" with
    | false =>
      exact ⟨{ name := "vcc", max_uA := maxua, min_uA := UFS_VREG_LPM_LOAD_UA,
               min_uV := UFS_VREG_VCC_MIN_UV, max_uV := UFS_VREG_VCC_MAX_UV },
             by simp [ufshcd_populate_vreg, hs, hfix, h1p8, hm, hmin, hvl, hlow, hrng],
             rfl, rfl⟩
    | true =>
      exact ⟨{ name := "vcc", max_uA := maxua, min_uA := UFS_VREG_LPM_LOAD_UA,
               min_uV := UFS_VREG_VCC_MIN_UV, max_uV := UFS_VREG_VCC_MAX_UV,
               low_voltage_sup := true },
             by simp [ufshcd_populate_vreg, hs, hfix, h1p8, hm, hmin, hvl, hlow, hrng],
             rfl, rfl⟩
  | ok minua =>
    cases hlow : of_property_read_bool np "vcc-low-voltage-sup" with
    | false =>
      exact ⟨{ name := "vcc", max_uA := maxua, min_uA := minua,
               min_uV := UFS_VREG_VCC_MIN_UV, max_uV := UFS_VREG_VCC_MAX_UV },
             by simp [ufshcd_populate_vreg, hs, hfix, h1p8, hm, hmin, hvl, hlow, hrng],
             rfl, rfl⟩
    | true =>
      exact ⟨{ name := "vcc", max_uA := maxua, min_uA := minua,
               min_uV := UFS_VREG_VCC_MIN_UV, max_uV := UFS_VREG_VCC_MAX_UV,
               low_voltage_sup := true },
             by simp [ufshcd_populate_vreg, hs, hfix, h1p8, hm, hmin, hvl, hlow, hrng],
             rfl, rfl⟩

/-- Witness for the amended C8 at a vcc node with a one-entry voltage level
and a max-microamp value. -/
theorem vcc_badvol_default_range_witness :
    of_parse_phandle npVccBadVol "vcc-supply" = true ∧
    of_property_read_bool npVccBadVol "vcc-fixed-regulator" = false ∧
    of_property_read_bool npVccBadVol "vcc-supply-1p8" = false ∧
    of_property_read_u32 npVccBadVol "vcc-max-microamp" = .ok 500000 ∧
    of_get_property npVccBadVol "vcc-voltage-level" = some [1800000] ∧
    ([1800000] : List Nat).length ≠ 2 ∧
    (∃ v, ufshcd_populate_vreg (some npVccBadVol) "vcc" = .ok (some v) ∧
      v.min_uV = UFS_VREG_VCC_MIN_UV ∧ v.max_uV = UFS_VREG_VCC_MAX_UV) :=
  ⟨rfl, rfl, rfl, rfl, rfl, by decide,
   vcc_badvol_default_range npVccBadVol [1800000] 500000 rfl rfl rfl rfl rfl
     (by decide)⟩

/-- C10: for the vcc role with supply present and vcc-supply-1p8 set, any
descriptor the parser yields has low_voltage_sup = false, even when the
vcc-low-voltage-sup boolean property is present: the low-voltage flag is only
consulted on the non-1.8V branch. -/
theorem vcc_1p8_low_voltage_false (np : DeviceNode) (v : UfsVreg)
    (hs : of_parse_phandle np "vcc-supply" = true)
    (h1p8 : of_property_read_bool np "vcc-supply-1p8" = true)
    (hlow : of_property_read_bool np "vcc-low-voltage-sup" = true)
    (hok : ufshcd_populate_vreg (some np) "vcc" = .ok (some v)) :
    v.low_voltage_sup = false := by
  cases hfix : of_property_read_bool np "vcc-fixed-regulator" with
  | true =>
    simp [ufshcd_populate_vreg, hs, hfix] at hok
    rw [← hok]
  | false =>
    cases hm : of_property_read_u32 np "vcc-max-microamp" with
    | error e =>
      simp [ufshcd_populate_vreg, hs, hfix, h1p8, hm] at hok
    | ok maxua =>
      cases hmin : of_property_read_u32 np "vcc-min-microamp" with
      | error e2 =>
        simp [ufshcd_populate_vreg, hs, hfix, h1p8, hm, hmin] at hok
        rw [← hok]
      | ok minua =>
        simp [ufshcd_populate_vreg, hs, hfix, h1p8, hm, hmin] at hok
        rw [← hok]

/-- Witness for C10 at a vcc node with both the 1.8V flag and the low-voltage
flag present. -/
theorem vcc_1p8_low_voltage_false_witness :
    of_parse_phandle npVcc1p8 "vcc-supply" = true ∧
    of_property_read_bool npVcc1p8 "vcc-supply-1p8" = true ∧
    of_property_read_bool npVcc1p8 "vcc-low-voltage-sup" = true ∧
    ufshcd_populate_vreg (some npVcc1p8) "vcc" =
      .ok (some { name := "vcc", max_uA := 500000, min_uA := UFS_VREG_LPM_LOAD_UA,
                  min_uV := UFS_VREG_VCC_1P8_MIN_UV,
                  max_uV := UFS_VREG_VCC_1P8_MAX_UV }) ∧
    ({ name := "vcc", max_uA := 500000, min_uA := UFS_VREG_LPM_LOAD_UA,
       min_uV := UFS_VREG_VCC_1P8_MIN_UV,
       max_uV := UFS_VREG_VCC_1P8_MAX_UV } : UfsVreg).low_voltage_sup = false :=
  ⟨rfl, rfl, rfl, rfl,
   vcc_1p8_low_voltage_false npVcc1p8
     { name := "vcc", max_uA := 500000, min_uA := UFS_VREG_LPM_LOAD_UA,
       min_uV := UFS_VREG_VCC_1P8_MIN_UV, max_uV := UFS_VREG_VCC_1P8_MAX_UV }
     rfl rfl rfl rfl⟩

/-- C9: the reference-clock-frequency parser yields the fixed 26 MHz default
sentinel whenever the dev-ref-clk-freq property is absent or its value lies
above the enumerated valid range, never the out-of-range value itself. -/
theorem ref_clk_default_on_invalid (np : DeviceNode) (prior : Nat)
    (h : np.u32Props.lookup "dev-ref-clk-freq" = none ∨
         ∃ v, np.u32Props.lookup "dev-ref-clk-freq" = some v ∧
           REF_CLK_FREQ_52_MHZ < v) :
    ufshcd_parse_dev_ref_clk_freq prior (some np) = REF_CLK_FREQ_26_MHZ := by
  rcases h with h | ⟨v, hv, hgt⟩
  · simp [ufshcd_parse_dev_ref_clk_freq, of_property_read_u32, h]
  · simp [ufshcd_parse_dev_ref_clk_freq, of_property_read_u32, hv, hgt]

/-- Witness for C9 at dev-ref-clk-freq = 999. -/
theorem ref_clk_default_on_invalid_witness :
    (npRefClk999.u32Props.lookup "dev-ref-clk-freq" = none ∨
      ∃ v, npRefClk999.u32Props.lookup "dev-ref-clk-freq" = some v ∧
        REF_CLK_FREQ_52_MHZ < v) ∧
    ufshcd_parse_dev_ref_clk_freq 0 (some npRefClk999) = REF_CLK_FREQ_26_MHZ :=
  ⟨Or.inr ⟨999, rfl, by decide⟩,
   ref_clk_default_on_invalid npRefClk999 0 (Or.inr ⟨999, rfl, by decide⟩)⟩

theorem ProbeEnv.WF_neg (env : ProbeEnv) (hwf : env.WF = true) :
    (∀ e, env.mmio_err = some e → e < 0) ∧ (∀ e, env.alloc_err = some e → e < 0) ∧
    (∀ e, env.reset_err = some e → e < 0) ∧ (∀ e, env.pinctrl_err = some e → e < 0) ∧
    (∀ e, env.extcon_err = some e → e < 0) ∧ (∀ e, env.init_err = some e → e < 0) := by
  unfold ProbeEnv.WF at hwf
  simp only [Bool.and_eq_true] at hwf
  obtain ⟨⟨⟨⟨⟨h1, h2⟩, h3⟩, h4⟩, h5⟩, h6⟩ := hwf
  refine ⟨?_, ?_, ?_, ?_, ?_, ?_⟩ <;>
    · intro e he
      first
      | (rw [he] at h1; simpa using h1)
      | (rw [he] at h2; simpa using h2)
      | (rw [he] at h3; simpa using h3)
      | (rw [he] at h4; simpa using h4)
      | (rw [he] at h5; simpa using h5)
      | (rw [he] at h6; simpa using h6)

/-- C1: whenever a mandatory stage (clock parse, regulator parse, extcon
resolution with an error other than absence, or the controller-core
initializer) fails in a probe run that got past resource mapping, irq lookup
and host allocation, the probe returns a negative status, the host is
deallocated, and no adapter is published; moreover the controller-core
initializer only ever runs after clock, regulator and extcon resolution have
all been validated. -/
theorem probe_mandatory_failure_clean (env : ProbeEnv)
    (hwf : env.WF = true) (hm : env.mmio_err = none) (hi : env.irq_ok = true)
    (ha : env.alloc_err = none) :
    (((∃ e, ufshcd_parse_clock_info env.node = .error e) ∨
      (∃ e, ufshcd_parse_regulator_info env.node = .error e) ∨
      (∃ e, env.extcon_err = some e ∧ e ≠ -ENODEV) ∨
      env.init_err ≠ none) →
      ((ufshcd_pltfrm_init env).ret < 0 ∧
       (ufshcd_pltfrm_init env).dealloc = true ∧
       (ufshcd_pltfrm_init env).published = false ∧
       (ufshcd_pltfrm_init env).adapter = none)) ∧
    (ProbeStage.init ∈ (ufshcd_pltfrm_init env).trace →
      ((∃ l, ufshcd_parse_clock_info env.node = .ok l) ∧
       (∃ r, ufshcd_parse_regulator_info env.node = .ok r) ∧
       (∀ e, env.extcon_err = some e → e = -ENODEV))) := by
  obtain ⟨-, -, hrstF, -, hextF, hiniF⟩ := ProbeEnv.WF_neg env hwf
  cases hc : ufshcd_parse_clock_info env.node with
  | error e =>
    have he : e < 0 := clock_info_error_neg env.node e hc
    refine ⟨fun _ => ?_, fun hmem => ?_⟩
    · simp [ufshcd_pltfrm_init, hm, hi, ha, hc, he]
    · simp [ufshcd_pltfrm_init, hm, hi, ha, hc] at hmem
  | ok clks =>
  cases hr : ufshcd_parse_regulator_info env.node with
  | error e =>
    have he : e < 0 := regulator_info_error_neg env.node e hr
    refine ⟨fun _ => ?_, fun hmem => ?_⟩
    · simp [ufshcd_pltfrm_init, hm, hi, ha, hc, hr, he]
    · simp [ufshcd_pltfrm_init, hm, hi, ha, hc, hr] at hmem
  | ok vregs =>
  cases hre : env.reset_err with
  | some e =>
    have hrst : e < 0 := hrstF e hre
    have hne : e ≠ 0 := by omega
    refine ⟨fun _ => ?_, fun hmem => ?_⟩
    · simp [ufshcd_pltfrm_init, hm, hi, ha, hc, hr, hre,
        ufshcd_parse_reset_info, hne, hrst]
    · simp [ufshcd_pltfrm_init, hm, hi, ha, hc, hr, hre,
        ufshcd_parse_reset_info, hne] at hmem
  | none =>
  cases hx : env.extcon_err with
  | some e =>
    have hext : e < 0 := hextF e hx
    by_cases hed : e = -ENODEV
    · subst hed
      cases hii : env.init_err with
      | some e2 =>
        have hini : e2 < 0 := hiniF e2 hii
        refine ⟨fun _ => ?_, fun _ => ?_⟩
        · simp [ufshcd_pltfrm_init, hm, hi, ha, hc, hr, hre, hx, hii,
            ufshcd_parse_reset_info, ufshcd_parse_extcon_info, hini]
        · exact ⟨⟨clks, rfl⟩, ⟨vregs, rfl⟩, fun e2 he2 => by
            injection he2 with h
            exact h.symm⟩
      | none =>
        refine ⟨fun hfail => ?_, fun _ => ?_⟩
        · rcases hfail with ⟨e2, hce⟩ | ⟨e2, hce⟩ | ⟨e2, hxe, hne2⟩ | hin
          · exact Except.noConfusion hce
          · exact Except.noConfusion hce
          · injection hxe with h
            exact absurd h.symm hne2
          · exact absurd rfl hin
        · exact ⟨⟨clks, rfl⟩, ⟨vregs, rfl⟩, fun e2 he2 => by
            injection he2 with h
            exact h.symm⟩
    · refine ⟨fun _ => ?_, fun hmem => ?_⟩
      · simp [ufshcd_pltfrm_init, hm, hi, ha, hc, hr, hre, hx,
          ufshcd_parse_reset_info, ufshcd_parse_extcon_info, hed, hext]
      · simp [ufshcd_pltfrm_init, hm, hi, ha, hc, hr, hre, hx,
          ufshcd_parse_reset_info, ufshcd_parse_extcon_info, hed] at hmem
  | none =>
    cases hii : env.init_err with
    | some e2 =>
      have hini : e2 < 0 := hiniF e2 hii
      refine ⟨fun _ => ?_, fun _ => ?_⟩
      · simp [ufshcd_pltfrm_init, hm, hi, ha, hc, hr, hre, hx, hii,
          ufshcd_parse_reset_info, ufshcd_parse_extcon_info, hini]
      · exact ⟨⟨clks, rfl⟩, ⟨vregs, rfl⟩, fun e2 he2 => Option.noConfusion he2⟩
    | none =>
      refine ⟨fun hfail => ?_, fun _ => ?_⟩
      · rcases hfail with ⟨e2, hce⟩ | ⟨e2, hce⟩ | ⟨e2, hxe, hne2⟩ | hin
        · exact Except.noConfusion hce
        · exact Except.noConfusion hce
        · exact Option.noConfusion hxe
        · exact absurd rfl hin
      · exact ⟨⟨clks, rfl⟩, ⟨vregs, rfl⟩, fun e2 he2 => Option.noConfusion he2⟩

/-- Witness for C1 at a probe whose clock table is malformed. -/
theorem probe_mandatory_failure_clean_witness :
    envClkBad.WF = true ∧ envClkBad.mmio_err = none ∧ envClkBad.irq_ok = true ∧
    envClkBad.alloc_err = none ∧
    ((((∃ e, ufshcd_parse_clock_info envClkBad.node = .error e) ∨
       (∃ e, ufshcd_parse_regulator_info envClkBad.node = .error e) ∨
       (∃ e, envClkBad.extcon_err = some e ∧ e ≠ -ENODEV) ∨
       envClkBad.init_err ≠ none) →
       ((ufshcd_pltfrm_init envClkBad).ret < 0 ∧
        (ufshcd_pltfrm_init envClkBad).dealloc = true ∧
        (ufshcd_pltfrm_init envClkBad).published = false ∧
        (ufshcd_pltfrm_init envClkBad).adapter = none)) ∧
     (ProbeStage.init ∈ (ufshcd_pltfrm_init envClkBad).trace →
       ((∃ l, ufshcd_parse_clock_info envClkBad.node = .ok l) ∧
        (∃ r, ufshcd_parse_regulator_info envClkBad.node = .ok r) ∧
        (∀ e, envClkBad.extcon_err = some e → e = -ENODEV)))) :=
  ⟨rfl, rfl, rfl, rfl, probe_mandatory_failure_clean envClkBad rfl rfl rfl rfl⟩

/-- C2 counterexample: with the reset-control lookup failing with `-EIO`
(everything else fine), the reset parser records the error and clears the
handle, but the probe ABORTS: it returns the error, deallocates the host, and
never reaches pinctrl or any later stage. -/
theorem reset_nonfatal_cex :
    ufshcd_parse_reset_info envResetFail.reset_err = (false, -5) ∧
    ufshcd_pltfrm_init envResetFail =
      { ret := -5, published := false, dealloc := true, pm_enabled := false,
        adapter := none,
        trace := [ProbeStage.clocks, ProbeStage.regulators, ProbeStage.reset] } ∧
    (ufshcd_pltfrm_init envResetFail).trace.contains ProbeStage.pinctrl = false :=
  ⟨rfl, rfl, rfl⟩

/-- C2 amended: when reset resolution fails (past mapping/irq/alloc, with
clocks and regulators parsed), the reset parser records the error and leaves
the adapter with no reset handle, and the probe aborts with that error:
full rollback, nothing published, no later stage runs. -/
theorem reset_failure_aborts (env : ProbeEnv) (e : Int)
    (hwf : env.WF = true) (hm : env.mmio_err = none) (hi : env.irq_ok = true)
    (ha : env.alloc_err = none)
    (hc : ∃ l, ufshcd_parse_clock_info env.node = .ok l)
    (hr : ∃ r, ufshcd_parse_regulator_info env.node = .ok r)
    (hre : env.reset_err = some e) :
    ufshcd_parse_reset_info env.reset_err = (false, e) ∧
    (ufshcd_pltfrm_init env).ret = e ∧
    (ufshcd_pltfrm_init env).dealloc = true ∧
    (ufshcd_pltfrm_init env).published = false ∧
    (ufshcd_pltfrm_init env).trace =
      [ProbeStage.clocks, ProbeStage.regulators, ProbeStage.reset] := by
  obtain ⟨-, -, hrstF, -, -, -⟩ := ProbeEnv.WF_neg env hwf
  have hneg : e < 0 := hrstF e hre
  have hne : e ≠ 0 := by omega
  obtain ⟨l, hc⟩ := hc
  obtain ⟨r, hr⟩ := hr
  refine ⟨by simp [ufshcd_parse_reset_info, hre], ?_, ?_, ?_, ?_⟩ <;>
    simp [ufshcd_pltfrm_init, hm, hi, ha, hc, hr, hre, ufshcd_parse_reset_info, hne]

/-- Witness for the amended C2 at the concrete reset-failure inputs. -/
theorem reset_failure_aborts_witness :
    envResetFail.WF = true ∧ envResetFail.mmio_err = none ∧
    envResetFail.irq_ok = true ∧ envResetFail.alloc_err = none ∧
    (∃ l, ufshcd_parse_clock_info envResetFail.node = .ok l) ∧
    (∃ r, ufshcd_parse_regulator_info envResetFail.node = .ok r) ∧
    envResetFail.reset_err = some (-5) ∧
    (ufshcd_parse_reset_info envResetFail.reset_err = (false, -5) ∧
     (ufshcd_pltfrm_init envResetFail).ret = -5 ∧
     (ufshcd_pltfrm_init envResetFail).dealloc = true ∧
     (ufshcd_pltfrm_init envResetFail).published = false ∧
     (ufshcd_pltfrm_init envResetFail).trace =
       [ProbeStage.clocks, ProbeStage.regulators, ProbeStage.reset]) :=
  ⟨rfl, rfl, rfl, rfl, ⟨[], rfl⟩, ⟨{}, rfl⟩, rfl,
   reset_failure_aborts envResetFail (-5) rfl rfl rfl rfl ⟨[], rfl⟩ ⟨{}, rfl⟩ rfl⟩

/-- C4 counterexample: in a fully successful probe the reference-clock
frequency parser (a scalar tuning parser) runs before the external-connector
stage, contradicting the claimed placement of the external connector ahead of
all scalar tuning parsers. -/
theorem probe_order_cex :
    (ufshcd_pltfrm_init envAllOk).ret = 0 ∧
    List.indexOf ProbeStage.refclk (ufshcd_pltfrm_init envAllOk).trace <
      List.indexOf ProbeStage.extcon (ufshcd_pltfrm_init envAllOk).trace :=
  ⟨rfl, by decide⟩

/-- C4 amended: in every probe whose mandatory collaborators succeed, the
stage order is clocks, regulators, reset, pinctrl, then the scalar parsers
(reference-clock frequency, power levels, gear limits, command timeout,
force-gear-four), then the external connector, then lanes-per-direction, then
the controller-core initializer; pinctrl failure does not disturb this. -/
theorem probe_order (env : ProbeEnv)
    (hm : env.mmio_err = none) (hi : env.irq_ok = true) (ha : env.alloc_err = none)
    (hc : ∃ l, ufshcd_parse_clock_info env.node = .ok l)
    (hr : ∃ r, ufshcd_parse_regulator_info env.node = .ok r)
    (hre : env.reset_err = none)
    (hx : env.extcon_err = none ∨ env.extcon_err = some (-ENODEV))
    (hii : env.init_err = none) :
    (ufshcd_pltfrm_init env).ret = 0 ∧
    (ufshcd_pltfrm_init env).published = true ∧
    (ufshcd_pltfrm_init env).trace =
      [ProbeStage.clocks, ProbeStage.regulators, ProbeStage.reset,
       ProbeStage.pinctrl, ProbeStage.refclk, ProbeStage.pmLevels,
       ProbeStage.gearLimits, ProbeStage.cmdTimeout, ProbeStage.forceG4,
       ProbeStage.extcon, ProbeStage.lanes, ProbeStage.init] := by
  obtain ⟨l, hc⟩ := hc
  obtain ⟨r, hr⟩ := hr
  rcases hx with hx | hx <;>
    refine ⟨?_, ?_, ?_⟩ <;>
      simp [ufshcd_pltfrm_init, hm, hi, ha, hc, hr, hre, hx, hii,
        ufshcd_parse_reset_info, ufshcd_parse_extcon_info]

/-- Witness for the amended C4 at the all-success inputs. -/
theorem probe_order_witness :
    envAllOk.mmio_err = none ∧ envAllOk.irq_ok = true ∧ envAllOk.alloc_err = none ∧
    (∃ l, ufshcd_parse_clock_info envAllOk.node = .ok l) ∧
    (∃ r, ufshcd_parse_regulator_info envAllOk.node = .ok r) ∧
    envAllOk.reset_err = none ∧ envAllOk.init_err = none ∧
    ((ufshcd_pltfrm_init envAllOk).ret = 0 ∧
     (ufshcd_pltfrm_init envAllOk).published = true ∧
     (ufshcd_pltfrm_init envAllOk).trace =
       [ProbeStage.clocks, ProbeStage.regulators, ProbeStage.reset,
        ProbeStage.pinctrl, ProbeStage.refclk, ProbeStage.pmLevels,
        ProbeStage.gearLimits, ProbeStage.cmdTimeout, ProbeStage.forceG4,
        ProbeStage.extcon, ProbeStage.lanes, ProbeStage.init]) :=
  ⟨rfl, rfl, rfl, ⟨[], rfl⟩, ⟨{}, rfl⟩, rfl, rfl,
   probe_order envAllOk rfl rfl rfl ⟨[], rfl⟩ ⟨{}, rfl⟩ rfl (Or.inl rfl) rfl⟩
